import Mathlib

/-!
Verification of the eval-protocol quickstart TypeScript server.

This file shallowly embeds the claim-relevant parts of the repository:

* `src/vercel_svg_server_ts/src/models/status.ts` — `StatusCode`, `Status`;
* `src/vercel_svg_server_ts/src/models/exceptions.ts` — the
  `EvalProtocolError` hierarchy, `exceptionForStatusCode`,
  `mapOpenAIErrorToStatus`, `isRetryableError`, and the
  `FireworksTransport` winston transport;
* `src/vercel_svg_server_ts/src/models/types.ts` — the zod schemas for
  `InitRequest` and chat messages;
* `src/vercel_svg_server_ts/src/config/environment.ts` — `getEnv`,
  `resolveApiKey`;
* `src/vercel_svg_server_ts/api/init.ts` — `logToFireworks` and the
  serverless `handler`.

JavaScript values flowing through the endpoint are modelled by `JValue`
(JSON values; `undefined` is represented by key absence, as produced by
`Object.entries` / zod parsing).  Network effects are modelled by passing
the outcome of each `fetch` call (`FetchResult`) as an explicit oracle
argument and recording the requests that the code issues.
-/

namespace EvalProtocolQuickstart

/-- JSON values (numbers as rationals; JSON numerals are decimal). -/
inductive JValue where
  | null : JValue
  | bool : Bool → JValue
  | num : Rat → JValue
  | str : String → JValue
  | arr : List JValue → JValue
  | obj : List (String × JValue) → JValue

/-- Objects as produced by `Object.entries`: ordered key/value lists. -/
abbrev JObj := List (String × JValue)

/-- Property lookup `o[k]`; `none` models `undefined`. -/
def lookupKey (o : JObj) (k : String) : Option JValue :=
  (o.find? (fun kv => kv.1 == k)).map (·.2)

def JValue.isStr : JValue → Bool
  | .str _ => true
  | _ => false

def JValue.isArr : JValue → Bool
  | .arr _ => true
  | _ => false

def JValue.isObj : JValue → Bool
  | .obj _ => true
  | _ => false

def JValue.isNum : JValue → Bool
  | .num _ => true
  | _ => false

def JValue.isNull : JValue → Bool
  | .null => true
  | _ => false

/-- JavaScript falsiness for the JSON fragment: `null`, `false`, `0`, `""`. -/
def jsFalsy : JValue → Bool
  | .null => true
  | .bool b => !b
  | .num q => q == 0
  | .str s => s == ""
  | .arr _ => false
  | .obj _ => false

/-- The string/undefined coalescing `a || b` (empty string is falsy). -/
def jsOrOpt (a b : Option String) : Option String :=
  match a with
  | some s => if s = "" then b else some s
  | none => b

/-- The coalescing `a || b` with a string literal default. -/
def jsOrS (a : Option String) (b : String) : String :=
  match a with
  | some s => if s = "" then b else s
  | none => b

/-- StatusCode enum from `status.ts` (gRPC codes plus EP custom codes). -/
inductive StatusCode where
  | OK
  | CANCELLED
  | UNKNOWN
  | INVALID_ARGUMENT
  | DEADLINE_EXCEEDED
  | NOT_FOUND
  | ALREADY_EXISTS
  | PERMISSION_DENIED
  | RESOURCE_EXHAUSTED
  | FAILED_PRECONDITION
  | ABORTED
  | OUT_OF_RANGE
  | UNIMPLEMENTED
  | INTERNAL
  | UNAVAILABLE
  | DATA_LOSS
  | UNAUTHENTICATED
  | FINISHED
  | RUNNING
  | SCORE_INVALID
  deriving DecidableEq, Repr

/-- Numeric values assigned by the `StatusCode` enum in `status.ts`. -/
def StatusCode.toNat : StatusCode → Nat
  | .OK => 0
  | .CANCELLED => 1
  | .UNKNOWN => 2
  | .INVALID_ARGUMENT => 3
  | .DEADLINE_EXCEEDED => 4
  | .NOT_FOUND => 5
  | .ALREADY_EXISTS => 6
  | .PERMISSION_DENIED => 7
  | .RESOURCE_EXHAUSTED => 8
  | .FAILED_PRECONDITION => 9
  | .ABORTED => 10
  | .OUT_OF_RANGE => 11
  | .UNIMPLEMENTED => 12
  | .INTERNAL => 13
  | .UNAVAILABLE => 14
  | .DATA_LOSS => 15
  | .UNAUTHENTICATED => 16
  | .FINISHED => 100
  | .RUNNING => 101
  | .SCORE_INVALID => 102

/-- Status from `status.ts`.  Every factory reachable from this codebase is
called without `extraInfo`, so `details` is `[]` at every call site and is
omitted from the model. -/
structure Status where
  code : StatusCode
  message : String
  deriving DecidableEq, Repr

def Status.ok : Status := ⟨.OK, "Success"⟩

def Status.rolloutFinished : Status := ⟨.FINISHED, "Rollout finished"⟩

def Status.permissionDeniedError (m : String) : Status := ⟨.PERMISSION_DENIED, m⟩

def Status.notFoundError (m : String) : Status := ⟨.NOT_FOUND, m⟩

def Status.resourceExhaustedError (m : String) : Status := ⟨.RESOURCE_EXHAUSTED, m⟩

def Status.invalidArgumentError (m : String) : Status := ⟨.INVALID_ARGUMENT, m⟩

def Status.internalError (m : String) : Status := ⟨.INTERNAL, m⟩

def Status.deadlineExceededError (m : String) : Status := ⟨.DEADLINE_EXCEEDED, m⟩

def Status.alreadyExistsError (m : String) : Status := ⟨.ALREADY_EXISTS, m⟩

def Status.unavailableError (m : String) : Status := ⟨.UNAVAILABLE, m⟩

/-- Delegating `rollout*` factories (called without `extraInfo` here). -/
def Status.rolloutPermissionDeniedError (m : String) : Status :=
  Status.permissionDeniedError m

def Status.rolloutNotFoundError (m : String) : Status := Status.notFoundError m

def Status.rolloutResourceExhaustedError (m : String) : Status :=
  Status.resourceExhaustedError m

def Status.rolloutInvalidArgumentError (m : String) : Status :=
  Status.invalidArgumentError m

def Status.rolloutInternalError (m : String) : Status := Status.internalError m

def Status.rolloutDeadlineExceededError (m : String) : Status :=
  Status.deadlineExceededError m

def Status.rolloutAlreadyExistsError (m : String) : Status :=
  Status.alreadyExistsError m

def Status.rolloutUnavailableError (m : String) : Status :=
  Status.unavailableError m

/-- Runtime classes of the error values this codebase discriminates on:
the OpenAI SDK error classes it checks with `instanceof`, the
`EvalProtocolError` subclasses, and `jsError` for every other error value
(plain `Error`s, parse errors, …). -/
inductive ErrClass where
  | oaiAuthentication
  | oaiPermissionDenied
  | oaiNotFound
  | oaiRateLimit
  | oaiBadRequest
  | oaiInternalServer
  | oaiUnprocessableEntity
  | oaiAPIConnectionTimeout
  | oaiAPIConnection
  | oaiConflict
  | epCancelled
  | epUnknown
  | epInvalidArgument
  | epDeadlineExceeded
  | epNotFound
  | epAlreadyExists
  | epPermissionDenied
  | epResourceExhausted
  | epFailedPrecondition
  | epAborted
  | epOutOfRange
  | epUnimplemented
  | epInternal
  | epUnavailable
  | epDataLoss
  | epUnauthenticated
  | jsError
  deriving DecidableEq, Repr

/-- JavaScript `instanceof`: reflexive, plus the one subclass edge among
the checked classes (`APIConnectionTimeoutError extends APIConnectionError`
in the OpenAI SDK). -/
def instOf (c target : ErrClass) : Bool :=
  c = target ∨
    (c = ErrClass.oaiAPIConnectionTimeout ∧ target = ErrClass.oaiAPIConnection)

/-- A thrown error value, as far as this codebase inspects it: its runtime
class, its optional `code` property, and its `message`. -/
structure ErrValue where
  cls : ErrClass
  code : Option String
  message : String
  deriving DecidableEq, Repr

/-- mapOpenAIErrorToStatus from `exceptions.ts`.  The
`error.message || String(error)` fallback only affects `Status.message`
(never the code) and is modelled as `e.message`. -/
def mapOpenAIErrorToStatus (e : ErrValue) : Status :=
  let errorMessage := e.message
  if instOf e.cls .oaiAuthentication then
    Status.rolloutPermissionDeniedError errorMessage
  else if instOf e.cls .oaiPermissionDenied then
    Status.rolloutPermissionDeniedError errorMessage
  else if instOf e.cls .oaiNotFound then
    Status.rolloutNotFoundError errorMessage
  else if instOf e.cls .oaiRateLimit then
    Status.rolloutResourceExhaustedError errorMessage
  else if instOf e.cls .oaiBadRequest then
    Status.rolloutInvalidArgumentError errorMessage
  else if instOf e.cls .oaiInternalServer then
    Status.rolloutInternalError errorMessage
  else if instOf e.cls .oaiUnprocessableEntity then
    Status.rolloutInvalidArgumentError errorMessage
  else if instOf e.cls .oaiAPIConnectionTimeout then
    Status.rolloutDeadlineExceededError errorMessage
  else if instOf e.cls .oaiConflict then
    Status.rolloutAlreadyExistsError errorMessage
  else if e.code = some "ECONNRESET" ∨ e.code = some "ENOTFOUND" ∨
      e.code = some "ETIMEDOUT" then
    Status.rolloutUnavailableError errorMessage
  else
    Status.rolloutInternalError errorMessage

/-- isRetryableError from `exceptions.ts`. -/
def isRetryableError (e : ErrValue) : Bool :=
  if instOf e.cls .oaiRateLimit ∨ instOf e.cls .oaiInternalServer ∨
      instOf e.cls .oaiAPIConnectionTimeout ∨ instOf e.cls .oaiAPIConnection then
    true
  else if e.code = some "ECONNRESET" ∨ e.code = some "ENOTFOUND" ∨
      e.code = some "ETIMEDOUT" ∨ e.code = some "ECONNREFUSED" then
    true
  else if instOf e.cls .epUnknown ∨ instOf e.cls .epDeadlineExceeded ∨
      instOf e.cls .epNotFound ∨ instOf e.cls .epPermissionDenied ∨
      instOf e.cls .epUnavailable ∨ instOf e.cls .epUnauthenticated ∨
      instOf e.cls .epResourceExhausted then
    true
  else
    false

/-- An `EvalProtocolError` instance: `message` from the constructor call,
`statusCode` hard-wired by the subclass constructor. -/
structure EvalProtocolError where
  message : String
  statusCode : StatusCode
  deriving DecidableEq, Repr

/-- STATUS_CODE_TO_EXCEPTION from `exceptions.ts`: each subclass ctor takes
`(message)` and ignores the extra `code` argument that
`exceptionForStatusCode` passes (`new exceptionClass(message, code)`). -/
def STATUS_CODE_TO_EXCEPTION (c : StatusCode) :
    Option (String → StatusCode → EvalProtocolError) :=
  match c with
  | .OK => none
  | .CANCELLED => some (fun m _ => ⟨m, .CANCELLED⟩)
  | .UNKNOWN => some (fun m _ => ⟨m, .UNKNOWN⟩)
  | .INVALID_ARGUMENT => some (fun m _ => ⟨m, .INVALID_ARGUMENT⟩)
  | .DEADLINE_EXCEEDED => some (fun m _ => ⟨m, .DEADLINE_EXCEEDED⟩)
  | .NOT_FOUND => some (fun m _ => ⟨m, .NOT_FOUND⟩)
  | .ALREADY_EXISTS => some (fun m _ => ⟨m, .ALREADY_EXISTS⟩)
  | .PERMISSION_DENIED => some (fun m _ => ⟨m, .PERMISSION_DENIED⟩)
  | .RESOURCE_EXHAUSTED => some (fun m _ => ⟨m, .RESOURCE_EXHAUSTED⟩)
  | .FAILED_PRECONDITION => some (fun m _ => ⟨m, .FAILED_PRECONDITION⟩)
  | .ABORTED => some (fun m _ => ⟨m, .ABORTED⟩)
  | .OUT_OF_RANGE => some (fun m _ => ⟨m, .OUT_OF_RANGE⟩)
  | .UNIMPLEMENTED => some (fun m _ => ⟨m, .UNIMPLEMENTED⟩)
  | .INTERNAL => some (fun m _ => ⟨m, .INTERNAL⟩)
  | .UNAVAILABLE => some (fun m _ => ⟨m, .UNAVAILABLE⟩)
  | .DATA_LOSS => some (fun m _ => ⟨m, .DATA_LOSS⟩)
  | .UNAUTHENTICATED => some (fun m _ => ⟨m, .UNAUTHENTICATED⟩)
  | .FINISHED => none
  | .RUNNING => none
  | .SCORE_INVALID => none

/-- exceptionForStatusCode from `exceptions.ts`. -/
def exceptionForStatusCode (code : StatusCode) (message : String := "") :
    Option EvalProtocolError :=
  match STATUS_CODE_TO_EXCEPTION code with
  | none => none
  | some exceptionClass => some (exceptionClass message code)

/-! ### Zod schemas from `types.ts` -/

/-- Check for a field declared `.optional().nullable()` with value
predicate `p`: absent (`undefined`) and `null` are accepted. -/
def optNullableOk (o : JObj) (k : String) (p : JValue → Bool) : Bool :=
  match lookupKey o k with
  | none => true
  | some .null => true
  | some v => p v

/-- Zod `z.object` strips unknown keys: keep the schema keys present in
the input, in schema order, preserving `null` values. -/
def stripToKeys (o : JObj) (keys : List String) : JObj :=
  keys.filterMap (fun k => (lookupKey o k).map (fun v => (k, v)))

/-- Keys of the first branch of `messageSchema` in declaration order. -/
def messageBranch1Keys : List String :=
  ["role", "content", "name", "tool_call_id", "tool_calls", "function_call",
   "reasoning_content", "control_plane_step", "weight"]

/-- First branch of `messageSchema`: system/user/assistant messages with
nullable optional fields (`function_call` is `z.any()`, so unchecked). -/
def parseMessageBranch1 (o : JObj) : Option JObj :=
  match lookupKey o "role" with
  | some (.str r) =>
    if (r = "system" ∨ r = "user" ∨ r = "assistant") ∧
        optNullableOk o "content" (fun v => v.isStr || v.isArr) ∧
        optNullableOk o "name" JValue.isStr ∧
        optNullableOk o "tool_call_id" JValue.isStr ∧
        optNullableOk o "tool_calls" JValue.isArr ∧
        optNullableOk o "reasoning_content" JValue.isStr ∧
        optNullableOk o "control_plane_step" JValue.isObj ∧
        optNullableOk o "weight" JValue.isNum then
      some (stripToKeys o messageBranch1Keys)
    else
      none
  | _ => none

/-- Second branch of `messageSchema`: tool messages with required string
`content` and `tool_call_id`. -/
def parseMessageBranch2 (o : JObj) : Option JObj :=
  match lookupKey o "role", lookupKey o "content", lookupKey o "tool_call_id" with
  | some (.str "tool"), some (.str _), some (.str _) =>
    if optNullableOk o "name" JValue.isStr then
      some (stripToKeys o ["role", "content", "tool_call_id", "name"])
    else
      none
  | _, _, _ => none

/-- messageSchema: a union tried in declaration order. -/
def parseMessage (v : JValue) : Option JObj :=
  match v with
  | .obj o => parseMessageBranch1 o <|> parseMessageBranch2 o
  | _ => none

/-- rolloutMetadataSchema: five required string fields. -/
structure RolloutMetadata where
  invocation_id : String
  experiment_id : String
  rollout_id : String
  run_id : String
  row_id : String
  deriving DecidableEq, Repr

def parseRolloutMetadata (v : JValue) : Option RolloutMetadata :=
  match v with
  | .obj o =>
    match lookupKey o "invocation_id", lookupKey o "experiment_id",
        lookupKey o "rollout_id", lookupKey o "run_id", lookupKey o "row_id" with
    | some (.str a), some (.str b), some (.str c), some (.str d),
        some (.str e) => some ⟨a, b, c, d, e⟩
    | _, _, _, _, _ => none
  | _ => none

/-- Parse a field declared `.optional().nullable()`.  The handler treats
`null` and absent identically (both are falsy), so both map to `none`. -/
def parseOptNullable (x : Option JValue) (f : JValue → Option α) :
    Option (Option α) :=
  match x with
  | none => some none
  | some .null => some none
  | some v => (f v).map some

/-- InitRequest, the output type of `initRequestSchema`. -/
structure InitRequest where
  completion_params : JObj
  messages : Option (List JObj)
  tools : Option (List JValue)
  metadata : RolloutMetadata
  model_base_url : Option String
  api_key : Option String

/-- A zod validation failure.  Zod's exact issue/message rendering is
library-internal; the model records one issue string per failed check. -/
structure ParseErr where
  issues : List String

def ParseErr.message (e : ParseErr) : String :=
  String.intercalate "; " e.issues

def parseStringJ (v : JValue) : Option String :=
  match v with
  | .str s => some s
  | _ => none

/-- initRequestSchema.safeParse from `types.ts`. -/
def parseInitRequest (v : JValue) : Except ParseErr InitRequest :=
  match v with
  | .obj o =>
    match lookupKey o "completion_params" with
    | some (.obj cp) =>
      match parseOptNullable (lookupKey o "messages")
          (fun v => match v with
            | .arr xs => xs.mapM parseMessage
            | _ => none) with
      | some msgs =>
        match parseOptNullable (lookupKey o "tools")
            (fun v => match v with
              | .arr xs => some xs
              | _ => none) with
        | some tools =>
          match (lookupKey o "metadata").bind parseRolloutMetadata with
          | some md =>
            match parseOptNullable (lookupKey o "model_base_url") parseStringJ with
            | some mb =>
              match parseOptNullable (lookupKey o "api_key") parseStringJ with
              | some ak => .ok ⟨cp, msgs, tools, md, mb, ak⟩
              | none => .error ⟨["api_key: Expected string, received other"]⟩
            | none => .error ⟨["model_base_url: Expected string, received other"]⟩
          | none => .error ⟨["metadata: Required object with invocation_id, experiment_id, rollout_id, run_id, row_id"]⟩
        | none => .error ⟨["tools: Expected array, received other"]⟩
      | none => .error ⟨["messages: Expected array of messages"]⟩
    | some _ => .error ⟨["completion_params: Expected object, received other"]⟩
    | none => .error ⟨["completion_params: Required"]⟩
  | _ => .error ⟨["Expected object, received other"]⟩

/-! ### Environment configuration (`environment.ts`) -/

/-- JavaScript `String.prototype.trim()`: strip leading and trailing
whitespace (modelled over the character list, structurally). -/
def jsTrim (s : String) : String :=
  ⟨((s.data.dropWhile Char.isWhitespace).reverse.dropWhile
      Char.isWhitespace).reverse⟩

/-- getEnv from `environment.ts`, with the raw environment value passed
in: `if (value && value.trim()) return value.trim(); return defaultValue`. -/
def getEnv (value : Option String) (defaultValue : Option String := none) :
    Option String :=
  match value with
  | some s => if s ≠ "" ∧ jsTrim s ≠ "" then some (jsTrim s) else defaultValue
  | none => defaultValue

/-- resolveApiKey from `environment.ts`: request key first, then the
`FIREWORKS_API_KEY` environment value via `getEnv`. -/
def resolveApiKey (requestApiKey envFireworksApiKey : Option String) :
    Option String :=
  let fromRequest : Option String :=
    match requestApiKey with
    | some s => if s ≠ "" ∧ jsTrim s ≠ "" then some (jsTrim s) else none
    | none => none
  match fromRequest with
  | some k => some k
  | none =>
    match getEnv envFireworksApiKey with
    | some envApiKey => if envApiKey ≠ "" then some envApiKey else none
    | none => none

/-! ### Message sanitization (`api/init.ts`) -/

/-- allowedMessageFields from the handler. -/
def allowedMessageFields : List String :=
  ["role", "content", "name", "tool_call_id", "tool_calls", "function_call"]

/-- JavaScript property assignment `o[k] = v` on an entries list. -/
def setKey (o : JObj) (k : String) (v : JValue) : JObj :=
  if o.any (fun kv => kv.1 = k) then
    o.map (fun kv => if kv.1 = k then (k, v) else kv)
  else
    o ++ [(k, v)]

/-- The sanitization loop body applied to all entries of a message. -/
def sanitizeFold (m : JObj) (acc : JObj) : JObj :=
  m.foldl (fun acc kv =>
    if kv.1 ∈ allowedMessageFields ∧ kv.2.isNull = false then
      setKey acc kv.1 kv.2
    else
      acc) acc

/-- The message sanitizer in the handler: keep allowed, non-null,
non-undefined fields; `throw new Error('Message role is required')` when
the sanitized object has no truthy `role`. -/
def sanitizeMessage (m : JObj) : Except String JObj :=
  let sanitized := sanitizeFold m []
  match lookupKey sanitized "role" with
  | none => .error "Message role is required"
  | some v =>
    if jsFalsy v then .error "Message role is required" else .ok sanitized

/-! ### FireworksTransport (`fireworks-transport.ts`, second document of
`exceptions.ts` in the source bundle) -/

/-- Outcome of one `fetch` call: a response with an HTTP status, or a
thrown network error. -/
inductive FetchResult where
  | ok : Nat → FetchResult
  | throw : String → FetchResult
  deriving DecidableEq, Repr

/-- Process environment, as a map from variable names to values. -/
abbrev ProcEnv := String → Option String

/-- The transport's fields after construction. -/
structure FireworksTransport where
  gatewayBaseUrl : String
  rolloutIdEnv : String
  apiKey : Option String

/-- Constructor options (`waitUntil` presence as a flag). -/
structure TransportOpts where
  gatewayBaseUrl : Option String := none
  rolloutIdEnv : Option String := none
  hasWaitUntil : Bool := false

/-- The `FireworksTransport` constructor:
`opts.gatewayBaseUrl || process.env.FW_TRACING_GATEWAY_BASE_URL ||
'https://tracing.fireworks.ai'`, `opts.rolloutIdEnv || 'EP_ROLLOUT_ID'`,
`apiKey = process.env.FIREWORKS_API_KEY`. -/
def FireworksTransport.ofOpts (opts : TransportOpts) (env : ProcEnv) :
    FireworksTransport where
  gatewayBaseUrl :=
    jsOrS (jsOrOpt opts.gatewayBaseUrl (env "FW_TRACING_GATEWAY_BASE_URL"))
      "https://tracing.fireworks.ai"
  rolloutIdEnv := jsOrS opts.rolloutIdEnv "EP_ROLLOUT_ID"
  apiKey := env "FIREWORKS_API_KEY"

/-- A winston log record as the transport inspects it. -/
structure LogInfo where
  message : JValue := .null
  level : Option String := none
  rollout_id : Option JValue := none
  experiment_id : Option JValue := none
  run_id : Option JValue := none
  rollout_ids : Option JValue := none
  status : Option JValue := none
  program : Option JValue := none
  logger_name : Option JValue := none

/-- getRolloutId: a truthy string `info.rollout_id`, else
`process.env[this.rolloutIdEnv] || null`. -/
def FireworksTransport.getRolloutId (t : FireworksTransport) (env : ProcEnv)
    (info : LogInfo) : Option String :=
  match info.rollout_id with
  | some (.str s) =>
    if s ≠ "" then some s
    else jsOrOpt (env t.rolloutIdEnv) none
  | _ => jsOrOpt (env t.rolloutIdEnv) none

/-- The `status` slice of the payload (`getStatusInfo`). -/
structure StatusInfo where
  code : Option Rat
  message : Option String
  details : List JValue

/-- getStatusInfo: non-falsy object `info.status` carrying both a `code`
and a `message` key; anything else yields `null`. -/
def FireworksTransport.getStatusInfo (info : LogInfo) : Option StatusInfo :=
  match info.status with
  | none => none
  | some v =>
    if jsFalsy v then none
    else
      match v with
      | .obj o =>
        if (lookupKey o "code").isSome ∧ (lookupKey o "message").isSome then
          some
            { code := match lookupKey o "code" with
                | some (.num n) => some n
                | _ => none
            , message := match lookupKey o "message" with
                | some (.str s) => some s
                | _ => none
            , details := match lookupKey o "details" with
                | some (.arr xs) => xs
                | _ => [] }
        else none
      | _ => none

/-- The JSON payload posted by the transport.  The `extras` block
(logger name, level, timestamp) carries no claim-relevant structure and
is omitted from the model. -/
structure FireworksPayload where
  program : String
  status : Option StatusInfo
  message : String
  tags : List String

/-- buildPayload from the transport. -/
def buildPayload (info : LogInfo) (rolloutId : String) : FireworksPayload :=
  let message : String :=
    match info.message with
    | .str s => s
    | _ => ""
  let baseTags : List String := ["rollout_id:" ++ rolloutId]
  let tags := baseTags ++
    (match info.experiment_id with
      | some (.str s) => if s ≠ "" then ["experiment_id:" ++ s] else []
      | _ => []) ++
    (match info.run_id with
      | some (.str s) => if s ≠ "" then ["run_id:" ++ s] else []
      | _ => []) ++
    (match info.rollout_ids with
      | some (.arr xs) =>
        xs.filterMap (fun v =>
          match v with
          | .str s => some ("rollout_id:" ++ s)
          | _ => none)
      | _ => [])
  let program :=
    match info.program with
    | some (.str s) => if s = "" then "eval_protocol" else s
    | _ => "eval_protocol"
  { program := program
  , status := FireworksTransport.getStatusInfo info
  , message := message
  , tags := tags }

/-- `replace(/\/$/, '')`: strip one trailing slash. -/
def dropTrailingSlash (s : String) : String :=
  if s.endsWith "/" then s.dropRight 1 else s

/-- One HTTP POST issued by the transport. -/
structure FwReq where
  url : String
  payload : FireworksPayload
  bearer : Option String

/-- The `Authorization` header: attached only for a truthy api key. -/
def FireworksTransport.bearer (t : FireworksTransport) : Option String :=
  match t.apiKey with
  | some s => if s = "" then none else some s
  | none => none

/-- Body of `sendToFireworks` before its `try/catch`: the requests
attempted, and the body's outcome (`.error` when a `fetch` threw). -/
def FireworksTransport.sendToFireworksBody (t : FireworksTransport)
    (env : ProcEnv) (info : LogInfo) (r1 r2 : FetchResult) :
    List FwReq × Except String Unit :=
  if t.gatewayBaseUrl = "" then ([], .ok ())
  else
    match t.getRolloutId env info with
    | none => ([], .ok ())
    | some rolloutId =>
      let payload := buildPayload info rolloutId
      let baseUrl := dropTrailingSlash t.gatewayBaseUrl
      let url := baseUrl ++ "/logs"
      let req1 : FwReq := ⟨url, payload, t.bearer⟩
      match r1 with
      | .throw m => ([req1], .error m)
      | .ok status =>
        if status = 404 then
          let altUrl := baseUrl ++ "/v1/logs"
          let req2 : FwReq := ⟨altUrl, payload, t.bearer⟩
          match r2 with
          | .throw m => ([req1, req2], .error m)
          | .ok _ => ([req1, req2], .ok ())
        else ([req1], .ok ())

/-- sendToFireworks: the body wrapped in the catch-all that silently
swallows errors (logging must not break the application). -/
def FireworksTransport.sendToFireworks (t : FireworksTransport)
    (env : ProcEnv) (info : LogInfo) (r1 r2 : FetchResult) :
    List FwReq × Except String Unit :=
  ((t.sendToFireworksBody env info r1 r2).1, .ok ())

/-- Events of one invocation of the transport's `log` method. -/
inductive TEv where
  | emitLogged
  | callbackInvoked
  | sendSettled
  deriving DecidableEq, Repr

/-- One run of `FireworksTransport.log`, split into what happens before
`log` returns and what is deferred to the event loop. -/
structure TransportLogRun where
  syncEvents : List TEv
  deferred : List TEv
  waitUntilAttached : Bool

/-- The `log` method: `setImmediate` defers the `logged` emit, the send
promise is started but not awaited (its settlement is deferred, attached
to `waitUntil` when available), and `callback()` is invoked at once. -/
def FireworksTransport.logRun (hasWaitUntil : Bool) : TransportLogRun where
  syncEvents := [TEv.callbackInvoked]
  deferred := [TEv.emitLogged, TEv.sendSettled]
  waitUntilAttached := hasWaitUntil

/-! ### The serverless handler (`api/init.ts`) -/

/-- Payload of the simple `logToFireworks` helper in `api/init.ts`; the
`extras` block (logger name, level, timestamp) is not claim-relevant and
is omitted. -/
structure InitLogPayload where
  program : String
  message : String
  tags : List String
  statusCode : StatusCode
  statusMessage : String

/-- One HTTP POST issued by `logToFireworks`. -/
structure LogPost where
  url : String
  payload : InitLogPayload
  bearer : String

/-- logToFireworks from `api/init.ts`: one POST of the JSON payload to
`${FW_TRACING_GATEWAY_BASE_URL || 'https://tracing.fireworks.ai'}/logs`.
Its `try/catch` swallows a thrown fetch error and a non-ok response only
reaches `console.error`, so it completes normally for every `fetch`
outcome `r`. -/
def logToFireworks (rolloutId message : String) (status : Status)
    (apiKey : String) (env : ProcEnv) (_r : FetchResult) :
    LogPost × Except String Unit :=
  let url := jsOrS (env "FW_TRACING_GATEWAY_BASE_URL")
    "https://tracing.fireworks.ai"
  let payload : InitLogPayload :=
    { program := "eval_protocol"
    , message := message
    , tags := ["rollout_id:" ++ rolloutId]
    , statusCode := status.code
    , statusMessage := status.message }
  (⟨url ++ "/logs", payload, apiKey⟩, .ok ())

/-- An HTTP response sent by the handler. -/
structure HttpResp where
  status : Nat
  body : JValue

/-- The completion request the handler forwards to the provider (only the
claim-relevant part: the sanitized messages; `stream` is always false). -/
structure CompletionCall where
  messages : List JObj

/-- Events of one handler invocation, in execution order.  Since
`api/init.ts` awaits every async operation it starts, the whole run is a
single sequential trace. -/
inductive Ev where
  | completionCreate
  | logPost
  | respond
  deriving DecidableEq, Repr

/-- Index of the first occurrence of an event in a trace (trace length
when absent). -/
def evIdx : List Ev → Ev → Nat
  | [], _ => 0
  | a :: t, x => if a = x then 0 else evIdx t x + 1

/-- The observable result of one handler invocation. -/
structure HandlerOut where
  resp : HttpResp
  completionCall : Option CompletionCall
  logPosts : List LogPost
  trace : List Ev

/-- The GET health-check body. -/
def healthBody : JValue :=
  .obj [("status", .str "ok"),
        ("message", .str "SVGBench Vercel TypeScript Serverless Function"),
        ("endpoints", .obj
          [("POST /init", .str "Process SVGBench evaluation requests"),
           ("GET /", .str "Health check endpoint")])]

/-- The catch-block response chain of the handler: HTTP status by
`instanceof` on the thrown error. -/
def errorHttpResponse (e : ErrValue) (rolloutId : String) : HttpResp :=
  if instOf e.cls .oaiAuthentication ∨ instOf e.cls .oaiPermissionDenied then
    ⟨403, .obj [("error", .str ("Authentication failed: " ++ e.message)),
                ("rollout_id", .str rolloutId)]⟩
  else if instOf e.cls .oaiNotFound then
    ⟨404, .obj [("error", .str ("Model not found: " ++ e.message)),
                ("rollout_id", .str rolloutId)]⟩
  else if instOf e.cls .oaiRateLimit then
    ⟨429, .obj [("error", .str ("Rate limit exceeded: " ++ e.message)),
                ("rollout_id", .str rolloutId)]⟩
  else if instOf e.cls .oaiBadRequest then
    ⟨400, .obj [("error", .str ("Bad request: " ++ e.message)),
                ("rollout_id", .str rolloutId)]⟩
  else if instOf e.cls .oaiAPIConnectionTimeout then
    ⟨408, .obj [("error", .str ("Request timeout: " ++ e.message)),
                ("rollout_id", .str rolloutId)]⟩
  else if instOf e.cls .oaiInternalServer then
    ⟨502, .obj [("error", .str ("Upstream server error: " ++ e.message)),
                ("rollout_id", .str rolloutId)]⟩
  else if instOf e.cls .oaiUnprocessableEntity then
    ⟨422, .obj [("error", .str ("Invalid request data: " ++ e.message)),
                ("rollout_id", .str rolloutId)]⟩
  else
    ⟨500, .obj [("error", .str ("Internal error: " ++ e.message)),
                ("rollout_id", .str rolloutId)]⟩

/-- The handler's catch block: map the error to a `Status`, await the
error log to Fireworks when `rolloutId && apiKey` are truthy, then send
the mapped HTTP response. -/
def handleCatch (e : ErrValue) (rolloutId apiKey : String)
    (cc : Option CompletionCall) (pre : List Ev) (env : ProcEnv)
    (logFetch : FetchResult) : HandlerOut :=
  let status := mapOpenAIErrorToStatus e
  if rolloutId ≠ "" ∧ apiKey ≠ "" then
    let (post, _) := logToFireworks rolloutId
      ("Rollout " ++ rolloutId ++ " failed: " ++ e.message) status apiKey env
      logFetch
    { resp := errorHttpResponse e rolloutId
    , completionCall := cc
    , logPosts := [post]
    , trace := pre ++ [Ev.logPost, Ev.respond] }
  else
    { resp := errorHttpResponse e rolloutId
    , completionCall := cc
    , logPosts := []
    , trace := pre ++ [Ev.respond] }

/-- The serverless handler of `api/init.ts`.  `completionResult` is the
outcome of `openaiClient.chat.completions.create` (only invoked when the
run reaches it) and `logFetch` the outcome of the trace-log POST. -/
def initHandler (method : String) (body : JValue) (env : ProcEnv)
    (completionResult : Except ErrValue Unit) (logFetch : FetchResult) :
    HandlerOut :=
  if method = "OPTIONS" then
    { resp := ⟨200, .obj []⟩, completionCall := none, logPosts := []
    , trace := [Ev.respond] }
  else if method = "GET" then
    { resp := ⟨200, healthBody⟩, completionCall := none, logPosts := []
    , trace := [Ev.respond] }
  else if method ≠ "POST" then
    { resp := ⟨405, .obj [("error", .str ("Method " ++ method ++ " not allowed"))]⟩
    , completionCall := none, logPosts := [], trace := [Ev.respond] }
  else
    match parseInitRequest body with
    | .error parseError =>
      { resp := ⟨400, .obj
          [("error", .str ("Invalid request format: " ++ parseError.message)),
           ("details", .arr (parseError.issues.map JValue.str))]⟩
      , completionCall := none, logPosts := [], trace := [Ev.respond] }
    | .ok initRequest =>
      let rolloutId := initRequest.metadata.rollout_id
      match initRequest.messages with
      | none =>
        { resp := ⟨400, .obj
            [("error", .str "messages is required and cannot be empty"),
             ("rollout_id", .str rolloutId)]⟩
        , completionCall := none, logPosts := [], trace := [Ev.respond] }
      | some messages =>
        if messages.length = 0 then
          { resp := ⟨400, .obj
              [("error", .str "messages is required and cannot be empty"),
               ("rollout_id", .str rolloutId)]⟩
          , completionCall := none, logPosts := [], trace := [Ev.respond] }
        else
          match resolveApiKey initRequest.api_key (env "FIREWORKS_API_KEY") with
          | none =>
            { resp := ⟨401, .obj
                [("error", .str "API key not provided in request or FIREWORKS_API_KEY environment variable"),
                 ("rollout_id", .str rolloutId)]⟩
            , completionCall := none, logPosts := [], trace := [Ev.respond] }
          | some apiKey =>
            match messages.mapM sanitizeMessage with
            | .error em =>
              -- the throw from the sanitizer lands in the outer catch as
              -- a plain Error, before the completion call
              handleCatch ⟨ErrClass.jsError, none, em⟩ rolloutId apiKey none
                [] env logFetch
            | .ok sanitizedMessages =>
              match completionResult with
              | .error e =>
                handleCatch e rolloutId apiKey (some ⟨sanitizedMessages⟩)
                  [Ev.completionCreate] env logFetch
              | .ok _ =>
                let status := Status.rolloutFinished
                let (post, _) := logToFireworks rolloutId
                  ("Rollout " ++ rolloutId ++ " completed") status apiKey env
                  logFetch
                { resp := ⟨200, .obj
                    [("status", .str "completed"),
                     ("rollout_id", .str rolloutId),
                     ("message", .str "Rollout completed successfully")]⟩
                , completionCall := some ⟨sanitizedMessages⟩
                , logPosts := [post]
                , trace := [Ev.completionCreate, Ev.logPost, Ev.respond] }

/-! ### Concrete example inputs used by counterexamples and witnesses -/

/-- An empty process environment. -/
def envNone : ProcEnv := fun _ => none

/-- A process environment supplying only `EP_ROLLOUT_ID`. -/
def envRollout : ProcEnv :=
  fun v => if v = "EP_ROLLOUT_ID" then some "r-1" else none

/-- A well-formed `InitRequest` body with an api key. -/
def exampleInitBody : JValue :=
  .obj [("completion_params", .obj [("model", .str "m")]),
        ("messages", .arr [.obj [("role", .str "user"), ("content", .str "hi")]]),
        ("metadata", .obj [("invocation_id", .str "i"),
          ("experiment_id", .str "e"), ("rollout_id", .str "r-1"),
          ("run_id", .str "run"), ("row_id", .str "row")]),
        ("api_key", .str "k")]

/-- A well-formed `InitRequest` body without an api key. -/
def exampleNoKeyBody : JValue :=
  .obj [("completion_params", .obj [("model", .str "m")]),
        ("messages", .arr [.obj [("role", .str "user"), ("content", .str "hi")]]),
        ("metadata", .obj [("invocation_id", .str "i"),
          ("experiment_id", .str "e"), ("rollout_id", .str "r-1"),
          ("run_id", .str "run"), ("row_id", .str "row")])]

/-- The parse of `exampleNoKeyBody`. -/
def exampleRequestNoKey : InitRequest :=
  { completion_params := [("model", .str "m")]
  , messages := some [[("role", .str "user"), ("content", .str "hi")]]
  , tools := none
  , metadata := ⟨"i", "e", "r-1", "run", "row"⟩
  , model_base_url := none
  , api_key := none }

/-- A message carrying both allowed and disallowed fields. -/
def exampleMessage : JObj :=
  [("role", .str "user"), ("content", .str "hi"),
   ("reasoning_content", .str "rc"), ("weight", .null)]

/-! ## Theorems -/

/-- C1: `mapOpenAIErrorToStatus` is total and maps each thrown error to a
status code by direct type-to-code dispatch — AuthenticationError and
PermissionDeniedError to PERMISSION_DENIED, NotFoundError to NOT_FOUND,
RateLimitError to RESOURCE_EXHAUSTED, BadRequestError and
UnprocessableEntityError to INVALID_ARGUMENT, InternalServerError to
INTERNAL, APIConnectionTimeoutError to DEADLINE_EXCEEDED, ConflictError
to ALREADY_EXISTS, errors with code ECONNRESET/ENOTFOUND/ETIMEDOUT to
UNAVAILABLE, and every other error to INTERNAL — and never returns OK. -/
theorem mapOpenAIErrorToStatus_code_spec : ∀ e : ErrValue,
    (mapOpenAIErrorToStatus e).code =
      (if instOf e.cls .oaiAuthentication ∨ instOf e.cls .oaiPermissionDenied then
        StatusCode.PERMISSION_DENIED
      else if instOf e.cls .oaiNotFound then StatusCode.NOT_FOUND
      else if instOf e.cls .oaiRateLimit then StatusCode.RESOURCE_EXHAUSTED
      else if instOf e.cls .oaiBadRequest ∨ instOf e.cls .oaiUnprocessableEntity then
        StatusCode.INVALID_ARGUMENT
      else if instOf e.cls .oaiInternalServer then StatusCode.INTERNAL
      else if instOf e.cls .oaiAPIConnectionTimeout then StatusCode.DEADLINE_EXCEEDED
      else if instOf e.cls .oaiConflict then StatusCode.ALREADY_EXISTS
      else if e.code = some "ECONNRESET" ∨ e.code = some "ENOTFOUND" ∨
          e.code = some "ETIMEDOUT" then StatusCode.UNAVAILABLE
      else StatusCode.INTERNAL) ∧
    (mapOpenAIErrorToStatus e).code ≠ StatusCode.OK := by
  rintro ⟨c, code, m⟩
  cases c <;>
    simp [mapOpenAIErrorToStatus, instOf, Status.rolloutPermissionDeniedError,
      Status.rolloutNotFoundError, Status.rolloutResourceExhaustedError,
      Status.rolloutInvalidArgumentError, Status.rolloutInternalError,
      Status.rolloutDeadlineExceededError, Status.rolloutAlreadyExistsError,
      Status.rolloutUnavailableError, Status.permissionDeniedError,
      Status.notFoundError, Status.resourceExhaustedError,
      Status.invalidArgumentError, Status.internalError,
      Status.deadlineExceededError, Status.alreadyExistsError,
      Status.unavailableError] <;>
    split <;> simp_all

/-- C1 witness: a rate-limit error maps to a non-OK status. -/
theorem mapOpenAIErrorToStatus_code_witness :
    (mapOpenAIErrorToStatus ⟨ErrClass.oaiRateLimit, none, "limited"⟩).code ≠
      StatusCode.OK :=
  (mapOpenAIErrorToStatus_code_spec ⟨ErrClass.oaiRateLimit, none, "limited"⟩).2

/-- C2 counterexample: on a concrete successful request, the handler of
`api/init.ts` produces its HTTP response only after the trace-log write
has completed (`await logToFireworks` precedes `res.status(200)` in the
trace), so the response is not produced without blocking on the log. -/
theorem initHandler_awaits_log_counterexample :
    Ev.logPost ∈ (initHandler "POST" exampleInitBody envNone
      (Except.ok ()) (FetchResult.ok 200)).trace ∧
    ¬ (evIdx (initHandler "POST" exampleInitBody envNone
        (Except.ok ()) (FetchResult.ok 200)).trace Ev.respond <
       evIdx (initHandler "POST" exampleInitBody envNone
        (Except.ok ()) (FetchResult.ok 200)).trace Ev.logPost) := by
  decide

/-- The possible event traces of the handler of `api/init.ts`. -/
theorem initHandler_trace_cases (method : String) (body : JValue)
    (env : ProcEnv) (co : Except ErrValue Unit) (lf : FetchResult) :
    (initHandler method body env co lf).trace ∈
      [[Ev.respond], [Ev.completionCreate, Ev.respond],
       [Ev.logPost, Ev.respond],
       [Ev.completionCreate, Ev.logPost, Ev.respond]] := by
  unfold initHandler handleCatch
  repeat' split
  all_goals try simp
  all_goals split <;> simp

/-- C2 (amended): in `api/init.ts` every request that reaches the logging
step completes the trace-log write before the HTTP response is sent (the
handler awaits `logToFireworks`); the only non-blocking part is the
winston `FireworksTransport.log` method, which invokes its completion
callback synchronously while the send promise settles later (deferred,
optionally handed to `waitUntil`). -/
theorem trace_log_blocking :
    (∀ (method : String) (body : JValue) (env : ProcEnv)
        (co : Except ErrValue Unit) (lf : FetchResult),
      Ev.logPost ∈ (initHandler method body env co lf).trace →
      evIdx (initHandler method body env co lf).trace Ev.logPost <
        evIdx (initHandler method body env co lf).trace Ev.respond) ∧
    (∀ hasWaitUntil : Bool,
      (FireworksTransport.logRun hasWaitUntil).syncEvents =
        [TEv.callbackInvoked] ∧
      TEv.sendSettled ∈ (FireworksTransport.logRun hasWaitUntil).deferred ∧
      TEv.sendSettled ∉ (FireworksTransport.logRun hasWaitUntil).syncEvents) := by
  constructor
  · intro method body env co lf hmem
    have h := initHandler_trace_cases method body env co lf
    simp only [List.mem_cons, List.mem_singleton, List.not_mem_nil] at h
    rcases h with h | h | h | h | h
    · rw [h] at hmem; exact absurd hmem (by decide)
    · rw [h] at hmem; exact absurd hmem (by decide)
    · rw [h]; decide
    · rw [h]; decide
    · exact h.elim
  · intro hasWaitUntil
    cases hasWaitUntil <;> exact ⟨rfl, by decide, by decide⟩

/-- C2 witness: on the concrete successful request, the completed log
write precedes the response in the handler trace. -/
theorem trace_log_blocking_witness :
    evIdx (initHandler "POST" exampleInitBody envNone
      (Except.ok ()) (FetchResult.ok 200)).trace Ev.logPost <
    evIdx (initHandler "POST" exampleInitBody envNone
      (Except.ok ()) (FetchResult.ok 200)).trace Ev.respond :=
  trace_log_blocking.1 "POST" exampleInitBody envNone (Except.ok ())
    (FetchResult.ok 200) (by decide)

/-- The constructed transport always has a nonempty gateway base URL. -/
theorem ofOpts_gateway_ne (opts : TransportOpts) (env : ProcEnv) :
    (FireworksTransport.ofOpts opts env).gatewayBaseUrl ≠ "" := by
  unfold FireworksTransport.ofOpts jsOrS jsOrOpt
  cases ho : opts.gatewayBaseUrl with
  | none =>
    cases he : env "FW_TRACING_GATEWAY_BASE_URL" with
    | none => simp
    | some s => by_cases hs : s = "" <;> simp [hs]
  | some s =>
    by_cases hs : s = ""
    · cases he : env "FW_TRACING_GATEWAY_BASE_URL" with
      | none => simp [hs]
      | some s' => by_cases hs' : s' = "" <;> simp [hs, hs']
    · simp [hs]

/-- C3: whenever a rollout id is available, the transport POSTs the
payload once to `<base>/logs`, POSTs the same payload a second time to
`<base>/v1/logs` exactly when the first response has HTTP status 404
(a thrown first fetch causes no retry), and never issues a third
request. -/
theorem sendToFireworks_retry : ∀ (opts : TransportOpts) (env : ProcEnv)
    (info : LogInfo) (rolloutId : String) (r1 r2 : FetchResult),
    (FireworksTransport.ofOpts opts env).getRolloutId env info = some rolloutId →
    ((FireworksTransport.ofOpts opts env).sendToFireworks env info r1 r2).1 =
      (if r1 = FetchResult.ok 404 then
        [⟨dropTrailingSlash (FireworksTransport.ofOpts opts env).gatewayBaseUrl
            ++ "/logs", buildPayload info rolloutId,
            (FireworksTransport.ofOpts opts env).bearer⟩,
         ⟨dropTrailingSlash (FireworksTransport.ofOpts opts env).gatewayBaseUrl
            ++ "/v1/logs", buildPayload info rolloutId,
            (FireworksTransport.ofOpts opts env).bearer⟩]
       else
        [⟨dropTrailingSlash (FireworksTransport.ofOpts opts env).gatewayBaseUrl
            ++ "/logs", buildPayload info rolloutId,
            (FireworksTransport.ofOpts opts env).bearer⟩]) ∧
    (((FireworksTransport.ofOpts opts env).sendToFireworks env info r1 r2).1.length = 2 ↔
      r1 = FetchResult.ok 404) ∧
    ((FireworksTransport.ofOpts opts env).sendToFireworks env info r1 r2).1.length ≤ 2 := by
  intro opts env info rolloutId r1 r2 hrid
  have hg := ofOpts_gateway_ne opts env
  cases r1 with
  | throw m =>
    simp [FireworksTransport.sendToFireworks,
      FireworksTransport.sendToFireworksBody, hg, hrid]
  | ok s =>
    by_cases h4 : s = 404 <;>
      cases r2 <;>
      simp [FireworksTransport.sendToFireworks,
        FireworksTransport.sendToFireworksBody, hg, hrid, h4]

/-- C3 witness: with `EP_ROLLOUT_ID` set and a 404 first response, the
transport issues exactly two requests. -/
theorem sendToFireworks_retry_witness :
    ((FireworksTransport.ofOpts {} envRollout).sendToFireworks envRollout {}
      (FetchResult.ok 404) (FetchResult.ok 200)).1.length = 2 :=
  (sendToFireworks_retry {} envRollout {} "r-1" (FetchResult.ok 404)
    (FetchResult.ok 200) rfl).2.1.mpr rfl

/-- C4: the trace-log POST is best-effort — the handler's HTTP response
is identical for every outcome of the log fetch, and both
`logToFireworks` and `FireworksTransport.sendToFireworks` return
normally (swallow errors) for every fetch outcome, thrown errors
included. -/
theorem logFailure_tolerated :
    (∀ (method : String) (body : JValue) (env : ProcEnv)
        (co : Except ErrValue Unit) (r r' : FetchResult),
      (initHandler method body env co r).resp =
        (initHandler method body env co r').resp) ∧
    (∀ (rolloutId message : String) (status : Status) (apiKey : String)
        (env : ProcEnv) (r : FetchResult),
      (logToFireworks rolloutId message status apiKey env r).2 =
        Except.ok ()) ∧
    (∀ (t : FireworksTransport) (env : ProcEnv) (info : LogInfo)
        (r1 r2 : FetchResult),
      (t.sendToFireworks env info r1 r2).2 = Except.ok ()) :=
  ⟨fun _ _ _ _ _ _ => rfl, fun _ _ _ _ _ _ => rfl, fun _ _ _ _ _ => rfl⟩

/-- C4 witness: a thrown log fetch leaves the concrete successful
response unchanged. -/
theorem logFailure_tolerated_witness :
    (initHandler "POST" exampleInitBody envNone (Except.ok ())
      (FetchResult.throw "net down")).resp =
    (initHandler "POST" exampleInitBody envNone (Except.ok ())
      (FetchResult.ok 200)).resp :=
  logFailure_tolerated.1 "POST" exampleInitBody envNone (Except.ok ())
    (FetchResult.throw "net down") (FetchResult.ok 200)

/-- C5: a POST body that fails `initRequestSchema` validation yields HTTP
400 carrying the validation details, with nothing forwarded to the
chat-completion API and no log posted; conversely a completion call is
only ever made for a body that parsed successfully. -/
theorem initRequest_validation : ∀ (body : JValue) (env : ProcEnv)
    (co : Except ErrValue Unit) (lf : FetchResult),
    (∀ pe, parseInitRequest body = .error pe →
      (initHandler "POST" body env co lf).resp =
        ⟨400, .obj [("error", .str ("Invalid request format: " ++ pe.message)),
                    ("details", .arr (pe.issues.map JValue.str))]⟩ ∧
      (initHandler "POST" body env co lf).completionCall = none ∧
      (initHandler "POST" body env co lf).logPosts = []) ∧
    (∀ cc, (initHandler "POST" body env co lf).completionCall = some cc →
      ∃ r, parseInitRequest body = .ok r) := by
  intro body env co lf
  constructor
  · intro pe hpe
    simp [initHandler, hpe]
  · intro cc hcc
    cases hp : parseInitRequest body with
    | error pe => simp [initHandler, hp] at hcc
    | ok r => exact ⟨r, rfl⟩

/-- C5 witness: the empty object is rejected with 400 and no completion
call. -/
theorem initRequest_validation_witness :
    (initHandler "POST" (JValue.obj []) envNone (Except.ok ())
      (FetchResult.ok 200)).completionCall = none ∧
    (initHandler "POST" (JValue.obj []) envNone (Except.ok ())
      (FetchResult.ok 200)).resp.status = 400 := by
  have h := (initRequest_validation (JValue.obj []) envNone (Except.ok ())
    (FetchResult.ok 200)).1 ⟨["completion_params: Required"]⟩ rfl
  exact ⟨h.2.1, by rw [h.1]⟩

/-- Property assignment appends when the key is absent. -/
theorem setKey_append (acc : JObj) (k : String) (v : JValue)
    (h : acc.any (fun kv => kv.1 = k) = false) :
    setKey acc k v = acc ++ [(k, v)] := by
  simp [setKey, h]

/-- The sanitization loop is a filter when the message keys are distinct
and disjoint from the accumulator's. -/
theorem sanitizeFold_eq (m : JObj) : ∀ acc : JObj,
    (m.map Prod.fst).Nodup →
    (∀ k, k ∈ acc.map Prod.fst → k ∉ m.map Prod.fst) →
    sanitizeFold m acc =
      acc ++ m.filter
        (fun kv => kv.1 ∈ allowedMessageFields ∧ kv.2.isNull = false) := by
  induction m with
  | nil => intro acc _ _; simp [sanitizeFold]
  | cons kv rest ih =>
    intro acc hn hdis
    have hrestn : (rest.map Prod.fst).Nodup := by
      simpa using hn.of_cons
    have hkvnotin : kv.1 ∉ rest.map Prod.fst := by
      have := hn
      simp only [List.map_cons, List.nodup_cons] at this
      exact this.1
    have hfold : sanitizeFold (kv :: rest) acc =
        sanitizeFold rest
          (if kv.1 ∈ allowedMessageFields ∧ kv.2.isNull = false then
            setKey acc kv.1 kv.2 else acc) := by
      simp [sanitizeFold]
    by_cases hc : kv.1 ∈ allowedMessageFields ∧ kv.2.isNull = false
    · have hany : acc.any (fun e => e.1 = kv.1) = false := by
        by_contra hx
        simp only [Bool.not_eq_false, List.any_eq_true, decide_eq_true_eq] at hx
        obtain ⟨e, he, hek⟩ := hx
        have : kv.1 ∈ acc.map Prod.fst := by
          simp only [List.mem_map]; exact ⟨e, he, hek⟩
        exact hdis kv.1 this (by simp)
      rw [hfold, if_pos hc, setKey_append acc kv.1 kv.2 hany]
      rw [ih (acc ++ [(kv.1, kv.2)]) hrestn (by
        intro k hk
        simp only [List.map_append, List.mem_append, List.map_cons,
          List.mem_singleton, List.map_nil] at hk
        rcases hk with hk | hk
        · intro hmem
          exact hdis k hk (by simp [hmem])
        · subst hk
          exact hkvnotin)]
      simp [hc, List.filter_cons]
    · rw [hfold, if_neg hc]
      rw [ih acc hrestn (by
        intro k hk hmem
        exact hdis k hk (by simp [hmem]))]
      simp [List.filter_cons, hc]

/-- C6: input sanitization — the sanitized message keeps exactly the
original pairs whose key is allowed (role, content, name, tool_call_id,
tool_calls, function_call) and whose value is neither null nor absent;
a sanitized message without a truthy role throws
'Message role is required'; and the messages the handler forwards to the
chat-completion API are exactly the sanitizer's outputs. -/
theorem sanitizeMessage_spec : (∀ m : JObj, (m.map Prod.fst).Nodup →
    sanitizeMessage m =
      (match lookupKey (m.filter
          (fun kv => kv.1 ∈ allowedMessageFields ∧ kv.2.isNull = false)) "role" with
       | none => .error "Message role is required"
       | some v =>
         if jsFalsy v then .error "Message role is required"
         else .ok (m.filter
          (fun kv => kv.1 ∈ allowedMessageFields ∧ kv.2.isNull = false)))) ∧
    (∀ (body : JValue) (env : ProcEnv) (co : Except ErrValue Unit)
        (lf : FetchResult) (r : InitRequest) (ms : List JObj)
        (cc : CompletionCall),
      parseInitRequest body = .ok r → r.messages = some ms →
      (initHandler "POST" body env co lf).completionCall = some cc →
      ms.mapM sanitizeMessage = .ok cc.messages) := by
  constructor
  · intro m hn
    have h := sanitizeFold_eq m [] hn (by simp)
    simp only [List.nil_append] at h
    simp only [sanitizeMessage, h]
  · intro body env co lf r ms cc hparse hms hcc
    have hunfold : ms.mapM sanitizeMessage =
        List.mapM.loop sanitizeMessage ms [] := rfl
    rw [hunfold]
    by_cases hlen : ms.length = 0
    · simp [initHandler, hparse, hms, hlen] at hcc
    · cases hk : resolveApiKey r.api_key (env "FIREWORKS_API_KEY") with
      | none => simp [initHandler, hparse, hms, hlen, hk] at hcc
      | some apiKey =>
        cases hsm : List.mapM.loop sanitizeMessage ms [] with
        | error em =>
          simp [initHandler, hparse, hms, hlen, hk, hsm, handleCatch] at hcc
          split at hcc <;> simp at hcc
        | ok sms =>
          cases co with
          | error e =>
            simp [initHandler, hparse, hms, hlen, hk, hsm, handleCatch] at hcc
            split at hcc <;> simp_all <;> subst hcc <;> rfl
          | ok u =>
            simp [initHandler, hparse, hms, hlen, hk, hsm] at hcc
            simp_all
            subst hcc
            rfl

/-- C6 witness: a concrete message loses its `reasoning_content` and
null `weight` fields and keeps role and content. -/
theorem sanitizeMessage_spec_witness :
    sanitizeMessage exampleMessage =
      Except.ok [("role", JValue.str "user"), ("content", JValue.str "hi")] :=
  (sanitizeMessage_spec.1 exampleMessage (by decide)).trans rfl

/-- C7: `isRetryableError` returns true exactly for the OpenAI
RateLimit/InternalServer/APIConnectionTimeout/APIConnection errors, the
ECONNRESET/ENOTFOUND/ETIMEDOUT/ECONNREFUSED codes, and the seven listed
EvalProtocolError subclasses; it is false for every other error. -/
theorem isRetryableError_spec : ∀ e : ErrValue,
    isRetryableError e = true ↔
      (e.cls ∈ [ErrClass.oaiRateLimit, ErrClass.oaiInternalServer,
          ErrClass.oaiAPIConnectionTimeout, ErrClass.oaiAPIConnection] ∨
        (∃ c, e.code = some c ∧
          c ∈ ["ECONNRESET", "ENOTFOUND", "ETIMEDOUT", "ECONNREFUSED"]) ∨
        e.cls ∈ [ErrClass.epUnknown, ErrClass.epDeadlineExceeded,
          ErrClass.epNotFound, ErrClass.epPermissionDenied,
          ErrClass.epUnavailable, ErrClass.epUnauthenticated,
          ErrClass.epResourceExhausted]) := by
  rintro ⟨c, code, m⟩
  cases c <;> simp [isRetryableError, instOf] <;> cases code <;> simp

/-- C7 witness: a rate-limit error is retryable. -/
theorem isRetryableError_spec_witness :
    isRetryableError ⟨ErrClass.oaiRateLimit, none, ""⟩ = true :=
  (isRetryableError_spec ⟨ErrClass.oaiRateLimit, none, ""⟩).mpr
    (Or.inl (by decide))

/-- C8: for every error status code (numeric values 1 through 16),
`exceptionForStatusCode` returns an exception whose `statusCode` is that
code and whose `message` is the given message; for OK, FINISHED, RUNNING
and SCORE_INVALID it returns null. -/
theorem exceptionForStatusCode_spec : ∀ (c : StatusCode) (m : String),
    ((exceptionForStatusCode c m).map (fun e => (e.statusCode, e.message)) =
      if c = .OK ∨ c = .FINISHED ∨ c = .RUNNING ∨ c = .SCORE_INVALID then none
      else some (c, m)) ∧
    ((1 ≤ c.toNat ∧ c.toNat ≤ 16) ↔
      ¬(c = .OK ∨ c = .FINISHED ∨ c = .RUNNING ∨ c = .SCORE_INVALID)) := by
  intro c m
  cases c <;>
    simp [exceptionForStatusCode, STATUS_CODE_TO_EXCEPTION, StatusCode.toNat]

/-- C8 witness: CANCELLED round-trips with its message. -/
theorem exceptionForStatusCode_spec_witness :
    (exceptionForStatusCode StatusCode.CANCELLED "boom").map
      (fun e => (e.statusCode, e.message)) =
    some (StatusCode.CANCELLED, "boom") := by
  have h := (exceptionForStatusCode_spec StatusCode.CANCELLED "boom").1
  simpa using h

/-- The trim of the empty string is empty. -/
theorem jsTrim_empty : jsTrim "" = "" := by decide

/-- A string with nonempty trim is nonempty. -/
theorem jsTrim_ne_empty (s : String) (h : jsTrim s ≠ "") : s ≠ "" := by
  intro he; subst he; exact h jsTrim_empty

/-- C9: `resolveApiKey` returns the trimmed request key when it trims to
nonempty (a whitespace-only key falls through), else the trimmed
`FIREWORKS_API_KEY` environment value when that trims to nonempty, else
null — and when resolution yields null on a valid request the handler
responds 401 without calling the provider. -/
theorem resolveApiKey_spec :
    (∀ k envv : Option String,
      resolveApiKey k envv =
        (if jsTrim (k.getD "") ≠ "" then some (jsTrim (k.getD ""))
         else if jsTrim (envv.getD "") ≠ "" then some (jsTrim (envv.getD ""))
         else none)) ∧
    (∀ (body : JValue) (env : ProcEnv) (co : Except ErrValue Unit)
        (lf : FetchResult) (r : InitRequest) (ms : List JObj),
      parseInitRequest body = .ok r →
      r.messages = some ms →
      ms.length ≠ 0 →
      resolveApiKey r.api_key (env "FIREWORKS_API_KEY") = none →
      (initHandler "POST" body env co lf).resp.status = 401 ∧
        (initHandler "POST" body env co lf).completionCall = none) := by
  constructor
  · rintro (_ | k) (_ | envv)
    · simp [resolveApiKey, getEnv, jsTrim_empty]
    · by_cases he : jsTrim envv = ""
      · simp [resolveApiKey, getEnv, he, jsTrim_empty]
      · simp [resolveApiKey, getEnv, he, jsTrim_ne_empty envv he, jsTrim_empty]
    · by_cases hk : jsTrim k = ""
      · simp [resolveApiKey, getEnv, hk, jsTrim_empty]
      · simp [resolveApiKey, getEnv, hk, jsTrim_ne_empty k hk, jsTrim_empty]
    · by_cases hk : jsTrim k = ""
      · by_cases he : jsTrim envv = ""
        · simp [resolveApiKey, getEnv, hk, he]
        · simp [resolveApiKey, getEnv, hk, he, jsTrim_ne_empty envv he]
      · simp [resolveApiKey, getEnv, hk, jsTrim_ne_empty k hk]
  · intro body env co lf r ms hparse hms hlen hkey
    simp [initHandler, hparse, hms, hlen, hkey]

/-- C9 witness: a request with no key and no environment key gets 401
and no provider call. -/
theorem resolveApiKey_spec_witness :
    (initHandler "POST" exampleNoKeyBody envNone (Except.ok ())
      (FetchResult.ok 200)).resp.status = 401 ∧
    (initHandler "POST" exampleNoKeyBody envNone (Except.ok ())
      (FetchResult.ok 200)).completionCall = none :=
  resolveApiKey_spec.2 exampleNoKeyBody envNone (Except.ok ())
    (FetchResult.ok 200) exampleRequestNoKey
    [[("role", JValue.str "user"), ("content", JValue.str "hi")]]
    rfl rfl (by decide) rfl

/-- C10: the transport issues no request at all when no rollout id is
available; and every built payload has a first tag `rollout_id:<id>`
(hence nonempty tags), a string message that is empty exactly when the
log message is not a string, and a program defaulting to
`eval_protocol` when `info.program` is not a string. -/
theorem fireworksTransport_logDelivery :
    (∀ (t : FireworksTransport) (env : ProcEnv) (info : LogInfo)
        (r1 r2 : FetchResult),
      t.getRolloutId env info = none →
      (t.sendToFireworks env info r1 r2).1 = []) ∧
    (∀ (info : LogInfo) (rolloutId : String),
      (buildPayload info rolloutId).tags.head? =
        some ("rollout_id:" ++ rolloutId)) ∧
    (∀ (info : LogInfo) (rolloutId : String),
      (buildPayload info rolloutId).tags ≠ []) ∧
    (∀ (info : LogInfo) (rolloutId : String),
      (buildPayload info rolloutId).message =
        (match info.message with
         | .str s => s
         | _ => "")) ∧
    (∀ (info : LogInfo) (rolloutId : String),
      (∀ s, info.program ≠ some (JValue.str s)) →
      (buildPayload info rolloutId).program = "eval_protocol") := by
  refine ⟨?_, ?_, ?_, ?_, ?_⟩
  · intro t env info r1 r2 h
    simp [FireworksTransport.sendToFireworks,
      FireworksTransport.sendToFireworksBody, h]
  · intro info rolloutId
    simp [buildPayload]
  · intro info rolloutId
    simp [buildPayload]
  · intro info rolloutId
    cases hm : info.message <;> simp [buildPayload, hm]
  · intro info rolloutId hp
    cases hpr : info.program with
    | none => simp [buildPayload, hpr]
    | some v =>
      cases v <;> simp [buildPayload, hpr]
      exact absurd hpr (by simp [hp])

/-- C10 witness: without a rollout id nothing is sent, and a record with
no program field gets the default program. -/
theorem fireworksTransport_logDelivery_witness :
    ((FireworksTransport.ofOpts {} envNone).sendToFireworks envNone {}
      (FetchResult.ok 200) (FetchResult.ok 200)).1 = [] ∧
    (buildPayload {} "r-1").program = "eval_protocol" :=
  ⟨fireworksTransport_logDelivery.1 (FireworksTransport.ofOpts {} envNone)
      envNone {} (FetchResult.ok 200) (FetchResult.ok 200) rfl,
   fireworksTransport_logDelivery.2.2.2.2 {} "r-1"
      (fun _ h => Option.noConfusion h)⟩

end EvalProtocolQuickstart
